import Mathlib

/-!
# Pico-10DOF-IMU telemetry firmware (`main.c`)

A shallow embedding of `main` of
`wrapyfi_interfaces/sensors/waveshare_imu/pico/c/main.c`.

The vendor drivers (`icm20948.h`, `lps22hb.h`) and the C library are external to
`main.c`.  Their results are inputs of the model (`Drivers`), and every call that
`main` makes to them is recorded, in program order, in an event trace.
`float` is kept abstract (a type parameter `F`), and the `%.2f` conversion of
`printf` is the field `Drivers.fmt2`.  For the concrete scenario of the
specification, `Binary32` and `fmt2f` instantiate them with finite binary32 values
and a round-to-nearest two-decimal rendering under an arbitrary tie rule.
-/

namespace WaveshareImu

/-- Value of the C enum `IMU_EN_SENSOR_TYPE` (declared in `icm20948.h`): a C integer. -/
abbrev IMU_EN_SENSOR_TYPE := Int

/-- The struct `IMU_ST_ANGLES_DATA` of `icm20948.h`: three `float` fields. -/
structure IMU_ST_ANGLES_DATA (F : Type) where
  fRoll : F
  fPitch : F
  fYaw : F
deriving DecidableEq, Repr

/-- The struct `IMU_ST_SENSOR_DATA` of `icm20948.h`: three `int16_t` fields. -/
structure IMU_ST_SENSOR_DATA where
  s16X : Int
  s16Y : Int
  s16Z : Int
deriving DecidableEq, Repr

/-- What one call `imuDataGet(&stAngles, &stGyroRawData, &stAccelRawData, &stMagnRawData)`
stores through its four pointers. -/
structure ImuData (F : Type) where
  angles : IMU_ST_ANGLES_DATA F
  gyro : IMU_ST_SENSOR_DATA
  accel : IMU_ST_SENSOR_DATA
  magn : IMU_ST_SENSOR_DATA
deriving DecidableEq, Repr

/-- The external world of `main`: the results of the driver calls and the
library's `%.2f` conversion. -/
structure Drivers (F : Type) where
  /-- the enum constant `IMU_EN_SENSOR_TYPE_ICM20948` -/
  IMU_EN_SENSOR_TYPE_ICM20948 : IMU_EN_SENSOR_TYPE
  /-- the value `imuInit` stores in `enMotionSensorType` -/
  imuInit : IMU_EN_SENSOR_TYPE
  /-- the return value of `LPS22HB_INIT()` -/
  LPS22HB_INIT : Int
  /-- the data stored by call number `k` (counted from 0) of `imuDataGet` -/
  imuDataGet : Nat → ImuData F
  /-- the text `printf` produces for one `%.2f` argument -/
  fmt2 : F → String

/-- Observable actions of `main`, one per call of an external function.
`I2C_readByte` is the register read of the commented-out pressure and temperature
conversion (lines 50 to 62). -/
inductive Event where
  | stdio_init_all
  | imuInit
  | LPS22HB_INIT
  | LPS22HB_START_ONESHOT
  | I2C_readByte (reg : Nat)
  | imuDataGet
  | printf (text : String)
  | sleep_ms (ms : Nat)
deriving DecidableEq, Repr

/-- The local variables of `main` that live code reads or writes.
(`PRESS_DATA`, `TEMP_DATA` and `u8Buf` are used in commented-out code only.) -/
structure Locals (F : Type) where
  enMotionSensorType : IMU_EN_SENSOR_TYPE
  stAngles : IMU_ST_ANGLES_DATA F
  stGyroRawData : IMU_ST_SENSOR_DATA
  stAccelRawData : IMU_ST_SENSOR_DATA
  stMagnRawData : IMU_ST_SENSOR_DATA
deriving DecidableEq, Repr

/-- Machine state: the locals, the number of `imuDataGet` calls made so far, and
the trace of external calls, oldest first. -/
structure State (F : Type) where
  locals : Locals F
  calls : Nat
  trace : List Event
deriving DecidableEq, Repr

/-- Record one external call. -/
def State.emit {F : Type} (s : State F) (e : Event) : State F :=
  { s with trace := s.trace ++ [e] }

/-- Result of running `main` with a bound on the number of loop iterations:
either `main` returned with an exit code, or it is still inside `while(1)`, at the
loop head, after the allowed number of complete iterations. -/
inductive Outcome (F : Type) where
  | returned (code : Int) (s : State F)
  | running (s : State F)
deriving DecidableEq, Repr

/-- The state an outcome carries. -/
def Outcome.state {F : Type} : Outcome F → State F
  | .returned _ s => s
  | .running s => s

/-- Lines 48 to 76: one pass through the body of `while(1)`. -/
def loopBody {F : Type} (d : Drivers F) (s : State F) : State F :=
  -- 48: LPS22HB_START_ONESHOT();
  let s := s.emit .LPS22HB_START_ONESHOT
  -- 64: imuDataGet( &stAngles, &stGyroRawData, &stAccelRawData, &stMagnRawData);
  let r := d.imuDataGet s.calls
  let s : State F :=
    { locals := { s.locals with stAngles := r.angles, stGyroRawData := r.gyro,
                                stAccelRawData := r.accel, stMagnRawData := r.magn }
      calls := s.calls + 1
      trace := s.trace ++ [.imuDataGet] }
  -- 65: printf("\r\n {");
  let s := s.emit (.printf "\r\n \x7b")
  -- 66: printf("\"roll\":%.2f, \"pitch\":%.2f, \"yaw\":%.2f", fRoll, fPitch, fYaw);
  let s := s.emit (.printf ("\"roll\":" ++ d.fmt2 s.locals.stAngles.fRoll
                            ++ ", \"pitch\":" ++ d.fmt2 s.locals.stAngles.fPitch
                            ++ ", \"yaw\":" ++ d.fmt2 s.locals.stAngles.fYaw))
  -- 75: printf("}");
  let s := s.emit (.printf "\x7d")
  -- 76: sleep_ms(100);
  s.emit (.sleep_ms 100)

/-- Lines 47 to 78: `while(1) body` followed by `return 0;`, run for at most `fuel`
iterations.  The loop condition is the constant `1`. -/
def whileLoop {F : Type} (d : Drivers F) : Nat → State F → Outcome F
  | 0, s => .running s
  | fuel + 1, s =>
    if (1 : Int) ≠ 0 then whileLoop d fuel (loopBody d s)
    else .returned 0 s

/-- The function `main` (lines 23 to 79).  `l0` holds the indeterminate initial
contents of the uninitialised locals. -/
def main {F : Type} (d : Drivers F) (l0 : Locals F) (fuel : Nat) : Outcome F :=
  -- 25: stdio_init_all();
  let s : State F := { locals := l0, calls := 0, trace := [.stdio_init_all] }
  -- 34: imuInit(&enMotionSensorType);
  let s : State F :=
    { s with locals := { s.locals with enMotionSensorType := d.imuInit }
             trace := s.trace ++ [.imuInit] }
  -- 35 to 42
  let s :=
    if d.IMU_EN_SENSOR_TYPE_ICM20948 = s.locals.enMotionSensorType then
      s.emit (.printf "Motion sersor is ICM-20948\n")
    else
      s.emit (.printf "Motion sersor NULL\n")
  -- 43: if (!LPS22HB_INIT())
  let s := s.emit .LPS22HB_INIT
  if d.LPS22HB_INIT = 0 then
    -- 44, 45
    .returned 0 (s.emit (.printf "LPS22HB Init Error\n"))
  else
    -- 47 to 78
    whileLoop d fuel s

/-! ## Vocabulary of the statements -/

/-- The text of the sensor-kind diagnostic of lines 35 to 42. -/
def kindLine {F : Type} (d : Drivers F) : String :=
  if d.IMU_EN_SENSOR_TYPE_ICM20948 = d.imuInit then "Motion sersor is ICM-20948\n"
  else "Motion sersor NULL\n"

/-- The calls `main` makes up to and including `LPS22HB_INIT()`. -/
def startup {F : Type} (d : Drivers F) : List Event :=
  [.stdio_init_all, .imuInit, .printf (kindLine d), .LPS22HB_INIT]

/-- The text of line 66 for given angles. -/
def anglesText {F : Type} (f : F → String) (a : IMU_ST_ANGLES_DATA F) : String :=
  "\"roll\":" ++ f a.fRoll ++ ", \"pitch\":" ++ f a.fPitch ++ ", \"yaw\":" ++ f a.fYaw

/-- The telemetry record as the specification writes it:
CR LF, a blank, an opening brace, the three labelled angles, a closing brace. -/
def specRecord {F : Type} (f : F → String) (a : IMU_ST_ANGLES_DATA F) : String :=
  "\r\n \x7b" ++ "\"roll\":" ++ f a.fRoll ++ ", \"pitch\":" ++ f a.fPitch
    ++ ", \"yaw\":" ++ f a.fYaw ++ "\x7d"

/-- The calls of loop cycle number `k` (counted from 0), in order. -/
def cycleEvents {F : Type} (d : Drivers F) (k : Nat) : List Event :=
  [.LPS22HB_START_ONESHOT, .imuDataGet, .printf "\r\n \x7b",
   .printf (anglesText d.fmt2 (d.imuDataGet k).angles), .printf "\x7d", .sleep_ms 100]

/-- The texts written by the `printf` calls of a trace, in order. -/
def printed : List Event → List String
  | [] => []
  | .printf t :: es => t :: printed es
  | _ :: es => printed es

/-- Concatenation of a list of texts, in order. -/
def concat : List String → String
  | [] => ""
  | t :: ts => t ++ concat ts

/-- The text a trace writes to the output stream. -/
def output (es : List Event) : String :=
  concat (printed es)

/-- The events a trace gained between an earlier state and a later one. -/
def newEvents {F : Type} (s s' : State F) : List Event :=
  s'.trace.drop s.trace.length

/-- A `printf` whose text begins with the record boundary CR LF blank brace. -/
def Event.beginsRecord : Event → Bool
  | .printf t => "\r\n \x7b".data.isPrefixOf t.data
  | _ => false

/-- A call that only the body of `while(1)` makes. -/
def Event.isLoopEvent : Event → Bool
  | .LPS22HB_START_ONESHOT => true
  | .imuDataGet => true
  | .sleep_ms _ => true
  | .I2C_readByte _ => true
  | e => e.beginsRecord

/-- A call of `sleep_ms`, whatever its duration. -/
def Event.isSleep : Event → Bool
  | .sleep_ms _ => true
  | _ => false

/-- A sample environment for concrete checks: angles are held in hundredths of a
degree, and call `k` of `imuDataGet` yields roll `k`, pitch `-k`, yaw `2k` degrees. -/
def sampleDrivers (kind : IMU_EN_SENSOR_TYPE) (lps : Int) : Drivers Int where
  IMU_EN_SENSOR_TYPE_ICM20948 := 1
  imuInit := kind
  LPS22HB_INIT := lps
  imuDataGet := fun k =>
    { angles := ⟨100 * k, -100 * k, 200 * k⟩, gyro := ⟨1, 2, 3⟩, accel := ⟨4, 5, 6⟩,
      magn := ⟨7, 8, 9⟩ }
  fmt2 := fun x =>
    (if x < 0 then "-" else "") ++ toString (x.natAbs / 100) ++ "."
      ++ toString (x.natAbs / 10 % 10) ++ toString (x.natAbs % 10)

/-- Sample initial contents of the locals. -/
def sampleLocals : Locals Int :=
  { enMotionSensorType := 7, stAngles := ⟨11, 12, 13⟩, stGyroRawData := ⟨0, 0, 0⟩,
    stAccelRawData := ⟨0, 0, 0⟩, stMagnRawData := ⟨0, 0, 0⟩ }

/-! ## Finite `float` values and the two-decimal rendering

`main.c` passes the three `float` angles to `printf` with `%.2f`.  Neither the
`float` format nor `printf` is part of `main.c`; the definitions below model them
for the concrete scenario of the specification. -/

/-- Modelled from the spec: a finite `float` (IEEE 754 binary32) value, the type
of `fRoll`, `fPitch`, `fYaw`, which is declared outside `main.c`.  The value is
`mant * 2 ^ exp`, negated when `neg` is set; the sign is kept apart so that a
negative value that rounds to zero still has it.  Passing a `float` to `printf`
promotes it to `double`, which keeps the value. -/
structure Binary32 where
  neg : Bool
  mant : Nat
  exp : Int
deriving DecidableEq, Repr

/-- A normal binary32 number: a 24-bit significand with its top bit set and an
exponent in range. -/
def Binary32.isNormal (x : Binary32) : Bool :=
  decide (2 ^ 23 ≤ x.mant ∧ x.mant < 2 ^ 24 ∧ -149 ≤ x.exp ∧ x.exp ≤ 104)

/-- The magnitude of `x` differs from the decimal `milli / 1000` by at most half a
unit in the last place of `x` (for `exp ≤ 0`): `x` is a binary32 value nearest to
that decimal. -/
def Binary32.isNearestMilli (x : Binary32) (milli : Nat) : Bool :=
  decide (x.exp ≤ 0
    ∧ 2 * ((x.mant : Int) * 1000 - (milli : Int) * 2 ^ (-x.exp).toNat).natAbs ≤ 1000)

/-- Modelled from the spec: the magnitude of `x` in hundredths, rounded to the
nearest hundredth (the `printf` of the C library is not in `main.c`; the spec asks
for "exactly two digits after the decimal point, using the platform's default
rounding").  `tie q` says whether a value exactly halfway between `q` and `q + 1`
hundredths goes up: constantly `true` is round-half-away-from-zero, `q` odd is
banker's rounding. -/
def hundredths (tie : Nat → Bool) (x : Binary32) : Nat :=
  let num := x.mant * 100 * 2 ^ x.exp.toNat
  let den := 2 ^ (-x.exp).toNat
  let q := num / den
  let r := num % den
  if 2 * r < den then q
  else if den < 2 * r then q + 1
  else if tie q then q + 1 else q

/-- Modelled from the spec: the text of one `%.2f` argument (the `printf` of the C
library is not in `main.c`): a minus sign when the sign of the value is set, the
integer part in decimal, a point, and exactly two decimals of the value rounded
to the nearest hundredth. -/
def fmt2f (tie : Nat → Bool) (x : Binary32) : String :=
  (if x.neg then "-" else "") ++ toString (hundredths tie x / 100) ++ "."
    ++ toString (hundredths tie x / 10 % 10) ++ toString (hundredths tie x % 10)

/-- The binary32 value nearest 12.345: `12944671 / 2 ^ 20`. -/
def roll12345 : Binary32 := { neg := false, mant := 12944671, exp := -20 }

/-- The binary32 value nearest -0.004: `-(8589935 / 2 ^ 31)`. -/
def pitchMinus0004 : Binary32 := { neg := true, mant := 8589935, exp := -31 }

/-- The binary32 value nearest 359.996: `11796349 / 2 ^ 15`. -/
def yaw359996 : Binary32 := { neg := false, mant := 11796349, exp := -15 }

/-- An environment whose every acquisition is the scenario of the specification,
printed under the tie rule `tie`. -/
def scenarioDrivers (tie : Nat → Bool) : Drivers Binary32 where
  IMU_EN_SENSOR_TYPE_ICM20948 := 1
  imuInit := 1
  LPS22HB_INIT := 1
  imuDataGet := fun _ =>
    { angles := ⟨roll12345, pitchMinus0004, yaw359996⟩, gyro := ⟨1, 2, 3⟩,
      accel := ⟨4, 5, 6⟩, magn := ⟨7, 8, 9⟩ }
  fmt2 := fmt2f tie

/-- A state at the loop head whose locals still hold other angles. -/
def scenarioState : State Binary32 :=
  { locals := { enMotionSensorType := 1, stAngles := ⟨yaw359996, roll12345, roll12345⟩,
                stGyroRawData := ⟨0, 0, 0⟩, stAccelRawData := ⟨0, 0, 0⟩,
                stMagnRawData := ⟨0, 0, 0⟩ }
    calls := 5
    trace := [] }

/-- The state in which `main` reaches the branch of line 43, after the call `LPS22HB_INIT()`. -/
def afterInit {F : Type} (d : Drivers F) (l0 : Locals F) : State F :=
  { locals := { l0 with enMotionSensorType := d.imuInit }, calls := 0, trace := startup d }

/-! ## Lemmas on the embedding -/

theorem loopBody_trace {F : Type} (d : Drivers F) (s : State F) :
    (loopBody d s).trace = s.trace ++ cycleEvents d s.calls := by
  simp [loopBody, State.emit, cycleEvents, anglesText]

theorem loopBody_calls {F : Type} (d : Drivers F) (s : State F) :
    (loopBody d s).calls = s.calls + 1 := by
  simp [loopBody, State.emit]

theorem loopBody_angles {F : Type} (d : Drivers F) (s : State F) :
    (loopBody d s).locals.stAngles = (d.imuDataGet s.calls).angles := by
  simp [loopBody, State.emit]

theorem whileLoop_running {F : Type} (d : Drivers F) (n : Nat) (s : State F) :
    whileLoop d n s = .running ((loopBody d)^[n] s) := by
  induction n generalizing s with
  | zero => rfl
  | succ n ih => simp [whileLoop, ih]

theorem iterate_calls {F : Type} (d : Drivers F) (n : Nat) (s : State F) :
    ((loopBody d)^[n] s).calls = s.calls + n := by
  induction n with
  | zero => rfl
  | succ n ih => rw [Function.iterate_succ_apply', loopBody_calls, ih]; omega

theorem iterate_trace {F : Type} (d : Drivers F) (n : Nat) (s : State F) :
    ((loopBody d)^[n] s).trace
      = s.trace ++ (List.range n).flatMap (fun k => cycleEvents d (s.calls + k)) := by
  induction n with
  | zero => simp
  | succ n ih =>
    rw [Function.iterate_succ_apply', loopBody_trace, ih, iterate_calls, List.range_succ,
      List.flatMap_append]
    simp

theorem main_fail {F : Type} (d : Drivers F) (l0 : Locals F) (fuel : Nat)
    (h : d.LPS22HB_INIT = 0) :
    main d l0 fuel = .returned 0 ((afterInit d l0).emit (.printf "LPS22HB Init Error\n")) := by
  unfold main afterInit startup kindLine
  by_cases hk : d.IMU_EN_SENSOR_TYPE_ICM20948 = d.imuInit <;> simp [h, hk, State.emit]

theorem main_ok {F : Type} (d : Drivers F) (l0 : Locals F) (fuel : Nat)
    (h : d.LPS22HB_INIT ≠ 0) :
    main d l0 fuel = .running ((loopBody d)^[fuel] (afterInit d l0)) := by
  rw [← whileLoop_running]
  unfold main afterInit startup kindLine
  by_cases hk : d.IMU_EN_SENSOR_TYPE_ICM20948 = d.imuInit <;> simp [h, hk, State.emit]

theorem kindLine_cases {F : Type} (d : Drivers F) :
    kindLine d = "Motion sersor is ICM-20948\n" ∨ kindLine d = "Motion sersor NULL\n" := by
  unfold kindLine
  split
  · exact Or.inl rfl
  · exact Or.inr rfl

theorem kindLine_not_loop {F : Type} (d : Drivers F) :
    (Event.printf (kindLine d)).isLoopEvent = false := by
  rcases kindLine_cases d with h | h <;> rw [h] <;> decide

theorem anglesText_ne_kindLine {F : Type} (d : Drivers F) (f : F → String)
    (a : IMU_ST_ANGLES_DATA F) : anglesText f a ≠ kindLine d := by
  intro h
  have h2 := congrArg String.data h
  rcases kindLine_cases d with hk | hk <;> rw [hk] at h2 <;>
    simp [anglesText, String.data_append] at h2

theorem kindLine_not_in_cycles {F : Type} (d : Drivers F) (n c : Nat) :
    Event.printf (kindLine d) ∉ (List.range n).flatMap (fun k => cycleEvents d (c + k)) := by
  intro h
  rw [List.mem_flatMap] at h
  obtain ⟨k, -, hk⟩ := h
  simp only [cycleEvents, List.mem_cons, List.mem_singleton, Event.printf.injEq,
    List.not_mem_nil, reduceCtorEq, false_or, or_false] at hk
  rcases hk with hk | hk | hk
  · rcases kindLine_cases d with h | h <;> rw [h] at hk <;> revert hk <;> decide
  · exact anglesText_ne_kindLine d _ _ hk.symm
  · rcases kindLine_cases d with h | h <;> rw [h] at hk <;> revert hk <;> decide

theorem printed_append (a b : List Event) : printed (a ++ b) = printed a ++ printed b := by
  induction a with
  | nil => rfl
  | cons e es ih => cases e <;> simp [printed, ih]

theorem concat_append (a b : List String) : concat (a ++ b) = concat a ++ concat b := by
  induction a with
  | nil => simp [concat]
  | cons t ts ih => simp [concat, ih, String.append_assoc]

theorem output_append (a b : List Event) : output (a ++ b) = output a ++ output b := by
  simp [output, printed_append, concat_append]

theorem output_cycleEvents {F : Type} (d : Drivers F) (k : Nat) :
    output (cycleEvents d k) = specRecord d.fmt2 (d.imuDataGet k).angles := by
  apply String.ext
  simp [output, printed, concat, cycleEvents, specRecord, anglesText, String.data_append]

theorem output_cycles {F : Type} (d : Drivers F) (n : Nat) :
    output ((List.range n).flatMap (cycleEvents d))
      = concat ((List.range n).map (fun k => specRecord d.fmt2 (d.imuDataGet k).angles)) := by
  induction n with
  | zero => rfl
  | succ n ih =>
    rw [List.range_succ, List.flatMap_append, List.map_append, output_append, concat_append, ih]
    simp [output_cycleEvents, concat]

theorem newEvents_loopBody {F : Type} (d : Drivers F) (s : State F) :
    newEvents s (loopBody d s) = cycleEvents d s.calls := by
  simp [newEvents, loopBody_trace]

theorem main_trace_ok {F : Type} (d : Drivers F) (l0 : Locals F) (n : Nat)
    (h : d.LPS22HB_INIT ≠ 0) :
    (main d l0 n).state.trace = startup d ++ (List.range n).flatMap (cycleEvents d) := by
  rw [main_ok d l0 n h]
  simp [Outcome.state, iterate_trace, afterInit]

theorem main_calls_ok {F : Type} (d : Drivers F) (l0 : Locals F) (n : Nat)
    (h : d.LPS22HB_INIT ≠ 0) : (main d l0 n).state.calls = n := by
  rw [main_ok d l0 n h]
  simp [Outcome.state, iterate_calls, afterInit]

theorem main_trace_take {F : Type} (d : Drivers F) (l0 : Locals F) (fuel : Nat) :
    (main d l0 fuel).state.trace.take 4 = startup d := by
  by_cases h : d.LPS22HB_INIT = 0
  · rw [main_fail d l0 fuel h]; simp [Outcome.state, afterInit, startup, State.emit]
  · rw [main_trace_ok d l0 fuel h]; simp [startup]

theorem kindLine_recognised {F : Type} (d : Drivers F)
    (h : d.imuInit = d.IMU_EN_SENSOR_TYPE_ICM20948) :
    kindLine d = "Motion sersor is ICM-20948\n" := by
  simp [kindLine, h]

theorem kindLine_other {F : Type} (d : Drivers F)
    (h : d.imuInit ≠ d.IMU_EN_SENSOR_TYPE_ICM20948) :
    kindLine d = "Motion sersor NULL\n" := by
  simp [kindLine, Ne.symm h]

theorem anglesText_not_record {F : Type} (f : F → String) (a : IMU_ST_ANGLES_DATA F) :
    (Event.printf (anglesText f a)).beginsRecord = false := by
  simp [Event.beginsRecord, anglesText, String.data_append, List.isPrefixOf]

theorem countP_cycles {F : Type} (d : Drivers F) (p : Event → Bool)
    (h : ∀ k, (cycleEvents d k).countP p = 1) (n : Nat) :
    ((List.range n).flatMap (cycleEvents d)).countP p = n := by
  induction n with
  | zero => rfl
  | succ n ih =>
    rw [List.range_succ, List.flatMap_append, List.countP_append, ih]
    simp [h]

theorem length_cycles {F : Type} (d : Drivers F) (n : Nat) :
    ((List.range n).flatMap (cycleEvents d)).length = 6 * n := by
  induction n with
  | zero => rfl
  | succ n ih =>
    rw [List.range_succ, List.flatMap_append, List.length_append, ih]
    simp [cycleEvents]
    omega

theorem cycles_block {F : Type} (d : Drivers F) (n k : Nat) (hk : k < n) :
    (((List.range n).flatMap (cycleEvents d)).drop (6 * k)).take 6 = cycleEvents d k := by
  induction n with
  | zero => omega
  | succ n ih =>
    rw [List.range_succ, List.flatMap_append]
    have hlen := length_cycles d n
    by_cases hkn : k < n
    · have h1 : 6 * k ≤ ((List.range n).flatMap (cycleEvents d)).length := by omega
      rw [List.drop_append_of_le_length h1, List.take_append_of_le_length, ih hkn]
      rw [List.length_drop]
      omega
    · have hkeq : k = n := by omega
      subst hkeq
      rw [← hlen, List.drop_left]
      simp [cycleEvents]

theorem printed_cycles {F : Type} (d : Drivers F) (n : Nat) :
    printed ((List.range n).flatMap (cycleEvents d))
      = (List.range n).flatMap
          (fun k => ["\r\n \x7b", anglesText d.fmt2 (d.imuDataGet k).angles, "\x7d"]) := by
  induction n with
  | zero => rfl
  | succ n ih =>
    rw [List.range_succ, List.flatMap_append, List.flatMap_append, printed_append, ih]
    simp [cycleEvents, printed]

theorem startup_countP_zero {F : Type} (d : Drivers F) (p : Event → Bool)
    (h1 : p .stdio_init_all = false) (h2 : p .imuInit = false)
    (h3 : p (.printf (kindLine d)) = false) (h4 : p .LPS22HB_INIT = false) :
    (startup d).countP p = 0 := by
  simp [startup, List.countP_cons, h1, h2, h3, h4]

theorem kindLine_not_record {F : Type} (d : Drivers F) :
    (Event.printf (kindLine d)).beginsRecord = false := by
  rcases kindLine_cases d with h | h <;> rw [h] <;> decide

theorem cycle_count_imuDataGet {F : Type} (d : Drivers F) (k : Nat) :
    (cycleEvents d k).countP (fun e => e == Event.imuDataGet) = 1 := by
  simp [cycleEvents, List.countP_cons]

theorem cycle_count_oneshot {F : Type} (d : Drivers F) (k : Nat) :
    (cycleEvents d k).countP (fun e => e == Event.LPS22HB_START_ONESHOT) = 1 := by
  simp [cycleEvents, List.countP_cons]

theorem cycle_count_sleep100 {F : Type} (d : Drivers F) (k : Nat) :
    (cycleEvents d k).countP (fun e => e == Event.sleep_ms 100) = 1 := by
  simp [cycleEvents, List.countP_cons]

theorem cycle_count_isSleep {F : Type} (d : Drivers F) (k : Nat) :
    (cycleEvents d k).countP Event.isSleep = 1 := by
  simp [cycleEvents, List.countP_cons, Event.isSleep]

theorem cycle_count_beginsRecord {F : Type} (d : Drivers F) (k : Nat) :
    (cycleEvents d k).countP Event.beginsRecord = 1 := by
  have h := anglesText_not_record d.fmt2 (d.imuDataGet k).angles
  have h0 : (Event.printf "\r\n \x7b").beginsRecord = true := by decide
  have h1 : (Event.printf "\x7d").beginsRecord = false := by decide
  simp [cycleEvents, List.countP_cons, h, h0, h1]
  simp [Event.beginsRecord]

theorem hundredths_roll12345 (tie : Nat → Bool) : hundredths tie roll12345 = 1235 := by
  unfold hundredths roll12345
  simp only []
  rw [if_neg (by decide), if_pos (by decide)]
  decide

theorem hundredths_pitchMinus0004 (tie : Nat → Bool) :
    hundredths tie pitchMinus0004 = 0 := by
  unfold hundredths pitchMinus0004
  simp only []
  rw [if_pos (by decide)]
  decide

theorem hundredths_yaw359996 (tie : Nat → Bool) : hundredths tie yaw359996 = 36000 := by
  unfold hundredths yaw359996
  simp only []
  rw [if_neg (by decide), if_pos (by decide)]
  decide

theorem fmt2f_roll12345 (tie : Nat → Bool) : fmt2f tie roll12345 = "12.35" := by
  unfold fmt2f
  rw [hundredths_roll12345]
  decide

theorem fmt2f_pitchMinus0004 (tie : Nat → Bool) : fmt2f tie pitchMinus0004 = "-0.00" := by
  unfold fmt2f
  rw [hundredths_pitchMinus0004]
  decide

theorem fmt2f_yaw359996 (tie : Nat → Bool) : fmt2f tie yaw359996 = "360.00" := by
  unfold fmt2f
  rw [hundredths_yaw359996]
  decide

/-! ## The claims -/

/-- C1: for every sensor kind `imuInit` reports, when `LPS22HB_INIT()` returns 0
(failure) `main` prints "LPS22HB Init Error" and returns, for any bound on loop
iterations, without entering the loop: the whole trace is the start-up calls
followed by that one `printf`; it holds no `LPS22HB_START_ONESHOT`, no
`imuDataGet`, no `sleep_ms`, and no `printf` that begins a telemetry record; the
text written is the sensor-kind line and the error line, with no opening brace. -/
theorem C1_pressure_init_failure_stops_before_loop {F : Type} (d : Drivers F)
    (l0 : Locals F) (fuel : Nat) (h : d.LPS22HB_INIT = 0) :
    ∃ s, main d l0 fuel = .returned 0 s
      ∧ s.trace = [.stdio_init_all, .imuInit, .printf (kindLine d), .LPS22HB_INIT,
                   .printf "LPS22HB Init Error\n"]
      ∧ s.calls = 0
      ∧ output s.trace = kindLine d ++ "LPS22HB Init Error\n"
      ∧ Char.ofNat 123 ∉ (output s.trace).data
      ∧ ∀ e ∈ s.trace, e ≠ .LPS22HB_START_ONESHOT ∧ e ≠ .imuDataGet
          ∧ (∀ ms, e ≠ .sleep_ms ms) ∧ e.beginsRecord = false := by
  have hout : output ((afterInit d l0).emit (.printf "LPS22HB Init Error\n")).trace
      = kindLine d ++ "LPS22HB Init Error\n" := by
    simp [afterInit, startup, State.emit, output, printed, concat]
  refine ⟨_, main_fail d l0 fuel h, ?_, ?_, hout, ?_, ?_⟩
  · simp [afterInit, startup, State.emit]
  · simp [afterInit, State.emit]
  · rw [hout]
    rcases kindLine_cases d with hk | hk <;> rw [hk] <;> decide
  · intro e he
    have hl : e.isLoopEvent = false := by
      simp only [afterInit, startup, State.emit, List.cons_append, List.nil_append,
        List.mem_cons, List.mem_singleton, List.not_mem_nil, or_false] at he
      rcases he with rfl | rfl | rfl | rfl | rfl
      · rfl
      · rfl
      · exact kindLine_not_loop d
      · rfl
      · decide
    refine ⟨?_, ?_, ?_, ?_⟩
    · rintro rfl; simp [Event.isLoopEvent] at hl
    · rintro rfl; simp [Event.isLoopEvent] at hl
    · rintro ms rfl; simp [Event.isLoopEvent] at hl
    · cases e <;> simp_all [Event.isLoopEvent, Event.beginsRecord]

/-- Witness for C1: the unrecognised kind 0 with a failing pressure init. -/
theorem C1_witness :
    (sampleDrivers 0 0).LPS22HB_INIT = 0
      ∧ ∃ s, main (sampleDrivers 0 0) sampleLocals 5 = .returned 0 s
        ∧ s.trace = [.stdio_init_all, .imuInit, .printf (kindLine (sampleDrivers 0 0)),
                     .LPS22HB_INIT, .printf "LPS22HB Init Error\n"]
        ∧ s.calls = 0
        ∧ output s.trace = kindLine (sampleDrivers 0 0) ++ "LPS22HB Init Error\n"
        ∧ Char.ofNat 123 ∉ (output s.trace).data
        ∧ ∀ e ∈ s.trace, e ≠ .LPS22HB_START_ONESHOT ∧ e ≠ .imuDataGet
            ∧ (∀ ms, e ≠ .sleep_ms ms) ∧ e.beginsRecord = false :=
  ⟨rfl, C1_pressure_init_failure_stops_before_loop (sampleDrivers 0 0) sampleLocals 5 rfl⟩

/-- C6: in every run of `main` the trace begins with `stdio_init_all`, `imuInit`,
the sensor-kind diagnostic and then `LPS22HB_INIT`, in this order, and none of
`imuInit`, the diagnostic, `LPS22HB_INIT` occurs again later; when `LPS22HB_INIT()`
returns 0 the only later event is the `printf` of the error line, which is no loop
event. -/
theorem C6_motion_init_and_log_precede_pressure_init {F : Type} (d : Drivers F)
    (l0 : Locals F) (fuel : Nat) :
    ∃ rest, (main d l0 fuel).state.trace
        = [.stdio_init_all, .imuInit, .printf (kindLine d), .LPS22HB_INIT] ++ rest
      ∧ Event.imuInit ∉ rest ∧ Event.printf (kindLine d) ∉ rest ∧ Event.LPS22HB_INIT ∉ rest
      ∧ (d.LPS22HB_INIT = 0 →
          rest = [.printf "LPS22HB Init Error\n"] ∧ ∀ e ∈ rest, e.isLoopEvent = false) := by
  by_cases h : d.LPS22HB_INIT = 0
  · refine ⟨[.printf "LPS22HB Init Error\n"], ?_, ?_, ?_, ?_, ?_⟩
    · rw [main_fail d l0 fuel h]; simp [Outcome.state, afterInit, startup, State.emit]
    · simp
    · rcases kindLine_cases d with hk | hk <;> rw [hk] <;> decide
    · simp
    · intro _
      refine ⟨rfl, ?_⟩
      intro e he
      rw [List.mem_singleton] at he
      subst he
      decide
  · refine ⟨(List.range fuel).flatMap (cycleEvents d), ?_, ?_, ?_, ?_, ?_⟩
    · rw [main_trace_ok d l0 fuel h]; rfl
    · simp [List.mem_flatMap, cycleEvents]
    · have := kindLine_not_in_cycles d fuel 0
      simpa using this
    · simp [List.mem_flatMap, cycleEvents]
    · intro h0; exact absurd h0 h

/-- C8: whenever `main` returns, the exit code is 0, and when `LPS22HB_INIT()`
returns 0 `main` does return (with code 0) whatever the bound on loop iterations;
no driver results make `main` return a non-zero code. -/
theorem C8_exit_code_is_zero {F : Type} (d : Drivers F) (l0 : Locals F) (fuel : Nat) :
    (∀ code s, main d l0 fuel = .returned code s → code = 0)
      ∧ (d.LPS22HB_INIT = 0 → ∃ s, main d l0 fuel = .returned 0 s) := by
  constructor
  · intro code s hm
    by_cases h : d.LPS22HB_INIT = 0
    · rw [main_fail d l0 fuel h] at hm
      injection hm with hc _
      exact hc.symm
    · rw [main_ok d l0 fuel h] at hm
      cases hm
  · intro h
    exact ⟨_, main_fail d l0 fuel h⟩

/-- Concrete check for C8: with a failing pressure init the run returns code 0. -/
theorem C8_witness :
    (∀ code s, main (sampleDrivers 1 0) sampleLocals 3 = .returned code s → code = 0)
      ∧ ∃ s, main (sampleDrivers 1 0) sampleLocals 3 = .returned 0 s :=
  ⟨(C8_exit_code_is_zero (sampleDrivers 1 0) sampleLocals 3).1,
   (C8_exit_code_is_zero (sampleDrivers 1 0) sampleLocals 3).2 rfl⟩

/-- C7: after a successful `LPS22HB_INIT()` (non-zero result), for every bound `n`
and every sequence of `imuDataGet` results, the run is inside the loop after `n`
complete cycles, has not returned, and a bound of `n + 1` continues that very run
with one more pass through the loop body. -/
theorem C7_running_never_terminates {F : Type} (d : Drivers F) (l0 : Locals F) (n : Nat)
    (h : d.LPS22HB_INIT ≠ 0) :
    (∃ s, main d l0 n = .running s ∧ s.calls = n)
      ∧ (∀ code s, main d l0 n ≠ .returned code s)
      ∧ main d l0 (n + 1) = .running (loopBody d (main d l0 n).state) := by
  refine ⟨⟨_, main_ok d l0 n h, ?_⟩, ?_, ?_⟩
  · simp [iterate_calls, afterInit]
  · intro code s hm
    rw [main_ok d l0 n h] at hm
    cases hm
  · rw [main_ok d l0 (n + 1) h, main_ok d l0 n h, Function.iterate_succ_apply']
    rfl

/-- Witness for C7: a successful pressure init and a bound of 4 cycles. -/
theorem C7_witness :
    (sampleDrivers 1 1).LPS22HB_INIT ≠ 0
      ∧ (∃ s, main (sampleDrivers 1 1) sampleLocals 4 = .running s ∧ s.calls = 4)
      ∧ (∀ code s, main (sampleDrivers 1 1) sampleLocals 4 ≠ .returned code s)
      ∧ main (sampleDrivers 1 1) sampleLocals (4 + 1)
          = .running (loopBody (sampleDrivers 1 1) (main (sampleDrivers 1 1) sampleLocals 4).state) :=
  ⟨by decide, C7_running_never_terminates (sampleDrivers 1 1) sampleLocals 4 (by decide)⟩

/-- C2: when `imuInit` reports any kind other than `IMU_EN_SENSOR_TYPE_ICM20948`,
`main` prints the fallback line "Motion sersor NULL" and goes on to call
`LPS22HB_INIT()`; when that call succeeds the run is inside the loop after any
number `n` of cycles, and the text written after start-up is the `n` telemetry
records of the `n` acquisitions. -/
theorem C2_unrecognised_motion_sensor_is_not_fatal {F : Type} (d : Drivers F)
    (l0 : Locals F) (n : Nat) (hk : d.imuInit ≠ d.IMU_EN_SENSOR_TYPE_ICM20948) :
    (main d l0 n).state.trace.take 4
        = [.stdio_init_all, .imuInit, .printf "Motion sersor NULL\n", .LPS22HB_INIT]
      ∧ (d.LPS22HB_INIT ≠ 0 →
          ∃ s, main d l0 n = .running s ∧ s.calls = n
            ∧ s.trace = [.stdio_init_all, .imuInit, .printf "Motion sersor NULL\n",
                         .LPS22HB_INIT] ++ (List.range n).flatMap (cycleEvents d)
            ∧ output (s.trace.drop 4)
                = concat ((List.range n).map
                    (fun k => specRecord d.fmt2 (d.imuDataGet k).angles))) := by
  have hline := kindLine_other d hk
  constructor
  · rw [main_trace_take, startup, hline]
  · intro h
    have ht := main_trace_ok d l0 n h
    have hc := main_calls_ok d l0 n h
    rw [main_ok d l0 n h] at ht hc ⊢
    simp only [Outcome.state] at ht hc
    refine ⟨_, rfl, hc, ?_, ?_⟩
    · rw [ht, startup, hline]
    · rw [ht, ← output_cycles]
      simp [startup]

/-- Witness for C2: kind 0 (not the recognised value 1), pressure init succeeds,
two cycles. -/
theorem C2_witness :
    (sampleDrivers 0 1).imuInit ≠ (sampleDrivers 0 1).IMU_EN_SENSOR_TYPE_ICM20948
      ∧ (sampleDrivers 0 1).LPS22HB_INIT ≠ 0
      ∧ ∃ s, main (sampleDrivers 0 1) sampleLocals 2 = .running s ∧ s.calls = 2
          ∧ s.trace = [.stdio_init_all, .imuInit, .printf "Motion sersor NULL\n",
                       .LPS22HB_INIT] ++ (List.range 2).flatMap (cycleEvents (sampleDrivers 0 1))
          ∧ output (s.trace.drop 4)
              = concat ((List.range 2).map
                  (fun k => specRecord (sampleDrivers 0 1).fmt2
                    ((sampleDrivers 0 1).imuDataGet k).angles)) :=
  ⟨by decide, by decide,
   (C2_unrecognised_motion_sensor_is_not_fatal (sampleDrivers 0 1) sampleLocals 2
      (by decide)).2 (by decide)⟩

/-- C4 as stated fails: with the recognised kind the third event of the run is the
`printf` of "Motion sersor is ICM-20948" (spelt "sersor"), not of
"Motion sensor is ICM-20948", and with another kind it is the `printf` of
"Motion sersor NULL", not of "Motion sensor NULL"; the texts of the claim are
printed nowhere in those runs, with or without the final newline. -/
theorem C4_counterexample :
    ((main (sampleDrivers 1 1) sampleLocals 1).state.trace[2]?
        = some (.printf "Motion sersor is ICM-20948\n")
      ∧ "Motion sensor is ICM-20948\n" ∉ printed (main (sampleDrivers 1 1) sampleLocals 1).state.trace
      ∧ "Motion sensor is ICM-20948" ∉ printed (main (sampleDrivers 1 1) sampleLocals 1).state.trace)
    ∧ ((main (sampleDrivers 0 1) sampleLocals 1).state.trace[2]?
        = some (.printf "Motion sersor NULL\n")
      ∧ "Motion sensor NULL\n" ∉ printed (main (sampleDrivers 0 1) sampleLocals 1).state.trace
      ∧ "Motion sensor NULL" ∉ printed (main (sampleDrivers 0 1) sampleLocals 1).state.trace) := by
  decide

/-- C4, amended: the sensor-kind diagnostic is the third event of every run and the
only text printed before `LPS22HB_INIT()`; it is "Motion sersor is ICM-20948"
followed by a newline when `imuInit` reports `IMU_EN_SENSOR_TYPE_ICM20948`, and
"Motion sersor NULL" followed by a newline for every other kind. -/
theorem C4_diagnostic_line_as_printed {F : Type} (d : Drivers F) (l0 : Locals F)
    (fuel : Nat) :
    (d.imuInit = d.IMU_EN_SENSOR_TYPE_ICM20948 →
        (main d l0 fuel).state.trace[2]? = some (.printf "Motion sersor is ICM-20948\n")
        ∧ printed ((main d l0 fuel).state.trace.take 4) = ["Motion sersor is ICM-20948\n"])
      ∧ (d.imuInit ≠ d.IMU_EN_SENSOR_TYPE_ICM20948 →
        (main d l0 fuel).state.trace[2]? = some (.printf "Motion sersor NULL\n")
        ∧ printed ((main d l0 fuel).state.trace.take 4) = ["Motion sersor NULL\n"]) := by
  have ht := main_trace_take d l0 fuel
  have h2 : (main d l0 fuel).state.trace[2]? = some (.printf (kindLine d)) := by
    have : ((main d l0 fuel).state.trace.take 4)[2]? = some (.printf (kindLine d)) := by
      rw [ht]; rfl
    rw [List.getElem?_take] at this
    simpa using this
  constructor
  · intro h
    rw [h2, ht, startup, kindLine_recognised d h]
    exact ⟨rfl, rfl⟩
  · intro h
    rw [h2, ht, startup, kindLine_other d h]
    exact ⟨rfl, rfl⟩

/-- Concrete check of the amended C4 on both branches. -/
theorem C4_witness :
    ((main (sampleDrivers 1 0) sampleLocals 0).state.trace[2]?
        = some (.printf "Motion sersor is ICM-20948\n")
      ∧ printed ((main (sampleDrivers 1 0) sampleLocals 0).state.trace.take 4)
          = ["Motion sersor is ICM-20948\n"])
    ∧ ((main (sampleDrivers 2 1) sampleLocals 3).state.trace[2]?
        = some (.printf "Motion sersor NULL\n")
      ∧ printed ((main (sampleDrivers 2 1) sampleLocals 3).state.trace.take 4)
          = ["Motion sersor NULL\n"]) :=
  ⟨(C4_diagnostic_line_as_printed (sampleDrivers 1 0) sampleLocals 0).1 (by decide),
   (C4_diagnostic_line_as_printed (sampleDrivers 2 1) sampleLocals 3).2 (by decide)⟩

/-- C3: in every cycle, whatever the state before it and whatever raw samples come
with the angles, the text the cycle writes is exactly CR LF blank brace, then
`"roll":` with the `%.2f` text of the roll, `, "pitch":` with that of the pitch,
`, "yaw":` with that of the yaw, then the closing brace.  Two cycles with the same
angles and the same `%.2f` conversion write the same text, and the last character
written in the cycle is the closing brace. -/
theorem C3_cycle_writes_exactly_one_record {F : Type} (d : Drivers F) (s : State F) :
    output (newEvents s (loopBody d s))
        = "\r\n \x7b" ++ "\"roll\":" ++ d.fmt2 (d.imuDataGet s.calls).angles.fRoll
            ++ ", \"pitch\":" ++ d.fmt2 (d.imuDataGet s.calls).angles.fPitch
            ++ ", \"yaw\":" ++ d.fmt2 (d.imuDataGet s.calls).angles.fYaw ++ "\x7d"
      ∧ (∀ (d' : Drivers F) (s' : State F), d'.fmt2 = d.fmt2 →
          (d'.imuDataGet s'.calls).angles = (d.imuDataGet s.calls).angles →
          output (newEvents s' (loopBody d' s')) = output (newEvents s (loopBody d s)))
      ∧ (printed (newEvents s (loopBody d s))).getLast? = some "\x7d"
      ∧ (output (newEvents s (loopBody d s))).data.getLast? = some (Char.ofNat 125) := by
  have h1 : ∀ (e : Drivers F) (t : State F), output (newEvents t (loopBody e t))
      = specRecord e.fmt2 (e.imuDataGet t.calls).angles := by
    intro e t
    rw [newEvents_loopBody, output_cycleEvents]
  refine ⟨?_, ?_, ?_, ?_⟩
  · rw [h1]; rfl
  · intro d' s' hf ha
    rw [h1, h1, hf, ha]
  · rw [newEvents_loopBody]
    simp [cycleEvents, printed]
  · rw [h1]
    unfold specRecord
    rw [String.data_append]
    show (_ ++ [Char.ofNat 125]).getLast? = _
    rw [List.getLast?_append]
    rfl

/-- C5: one pass through the loop body adds to the trace exactly, in this order, one
`LPS22HB_START_ONESHOT`, one `imuDataGet`, the three `printf` calls that together
write one telemetry record of the angles that very `imuDataGet` stored, and one
`sleep_ms(100)`; no `I2C_readByte` occurs.  In a run whose pressure init succeeded,
cycle number `n` is such a pass with acquisition number `n`. -/
theorem C5_cycle_event_sequence {F : Type} (d : Drivers F) (s : State F) :
    newEvents s (loopBody d s)
        = [.LPS22HB_START_ONESHOT, .imuDataGet, .printf "\r\n \x7b",
           .printf ("\"roll\":" ++ d.fmt2 (loopBody d s).locals.stAngles.fRoll
             ++ ", \"pitch\":" ++ d.fmt2 (loopBody d s).locals.stAngles.fPitch
             ++ ", \"yaw\":" ++ d.fmt2 (loopBody d s).locals.stAngles.fYaw),
           .printf "\x7d", .sleep_ms 100]
      ∧ (loopBody d s).locals.stAngles = (d.imuDataGet s.calls).angles
      ∧ (loopBody d s).calls = s.calls + 1
      ∧ output (newEvents s (loopBody d s)) = specRecord d.fmt2 (d.imuDataGet s.calls).angles
      ∧ (∀ reg, Event.I2C_readByte reg ∉ newEvents s (loopBody d s))
      ∧ (∀ (l0 : Locals F) (n : Nat), d.LPS22HB_INIT ≠ 0 →
          main d l0 (n + 1) = .running (loopBody d (main d l0 n).state)
          ∧ (main d l0 n).state.calls = n) := by
  refine ⟨?_, loopBody_angles d s, loopBody_calls d s, ?_, ?_, ?_⟩
  · rw [newEvents_loopBody, loopBody_angles]
    rfl
  · rw [newEvents_loopBody, output_cycleEvents]
  · intro reg
    rw [newEvents_loopBody]
    simp [cycleEvents]
  · intro l0 n h
    refine ⟨?_, main_calls_ok d l0 n h⟩
    rw [main_ok d l0 (n + 1) h, main_ok d l0 n h, Function.iterate_succ_apply']
    rfl

/-- Concrete check for C5: the events of the second cycle of a sample run. -/
theorem C5_witness :
    newEvents (main (sampleDrivers 1 1) sampleLocals 1).state
        (main (sampleDrivers 1 1) sampleLocals 2).state
      = [.LPS22HB_START_ONESHOT, .imuDataGet, .printf "\r\n \x7b",
         .printf "\"roll\":1.00, \"pitch\":-1.00, \"yaw\":2.00",
         .printf "\x7d", .sleep_ms 100] := by
  have h := (C5_cycle_event_sequence (sampleDrivers 1 1)
    (main (sampleDrivers 1 1) sampleLocals 1).state).2.2.2.2.2 sampleLocals 1 (by decide)
  rw [h.1]
  decide

/-- C10: in a run whose pressure init succeeded, after `n` completed cycles the
trace is the start-up calls followed by the `n` cycle blocks in order; it holds
exactly `n` `imuDataGet` calls, `n` `LPS22HB_START_ONESHOT` calls, `n` record
openings and `n` sleeps, each of 100 ms; block number `k` is the cycle rendered
from the angles of acquisition number `k`, the text written after start-up is the
concatenation of the records of acquisitions `0` to `n - 1`, and after each cycle
`stAngles` holds the angles of that cycle's acquisition. -/
theorem C10_loop_invariant {F : Type} (d : Drivers F) (l0 : Locals F) (n : Nat)
    (h : d.LPS22HB_INIT ≠ 0) :
    ∃ s, main d l0 n = .running s
      ∧ s.calls = n
      ∧ s.trace = startup d ++ (List.range n).flatMap (cycleEvents d)
      ∧ s.trace.count .imuDataGet = n
      ∧ s.trace.count .LPS22HB_START_ONESHOT = n
      ∧ s.trace.countP Event.beginsRecord = n
      ∧ s.trace.count (.sleep_ms 100) = n
      ∧ s.trace.countP Event.isSleep = n
      ∧ (∀ k, k < n → ((s.trace.drop (4 + 6 * k)).take 6
          = [.LPS22HB_START_ONESHOT, .imuDataGet, .printf "\r\n \x7b",
             .printf (anglesText d.fmt2 (d.imuDataGet k).angles), .printf "\x7d",
             .sleep_ms 100]))
      ∧ printed (s.trace.drop 4) = (List.range n).flatMap
          (fun k => ["\r\n \x7b", anglesText d.fmt2 (d.imuDataGet k).angles, "\x7d"])
      ∧ output (s.trace.drop 4)
          = concat ((List.range n).map (fun k => specRecord d.fmt2 (d.imuDataGet k).angles))
      ∧ (main d l0 (n + 1)).state.locals.stAngles = (d.imuDataGet n).angles := by
  have ht := main_trace_ok d l0 n h
  have hc := main_calls_ok d l0 n h
  have hnext : (main d l0 (n + 1)).state.locals.stAngles = (d.imuDataGet n).angles := by
    rw [main_ok d l0 (n + 1) h, Function.iterate_succ_apply']
    simp [Outcome.state, loopBody_angles, iterate_calls, afterInit]
  rw [main_ok d l0 n h] at ht hc ⊢
  simp only [Outcome.state] at ht hc
  have hdrop : (startup d ++ (List.range n).flatMap (cycleEvents d)).drop 4
      = (List.range n).flatMap (cycleEvents d) := by
    simp [startup]
  refine ⟨_, rfl, hc, ht, ?_, ?_, ?_, ?_, ?_, ?_, ?_, ?_, hnext⟩
  · rw [ht]
    show List.countP (fun e => e == Event.imuDataGet) _ = n
    rw [List.countP_append, countP_cycles d _ (cycle_count_imuDataGet d),
      startup_countP_zero d _ (by decide) (by decide) (by simp) (by decide)]
    omega
  · rw [ht]
    show List.countP (fun e => e == Event.LPS22HB_START_ONESHOT) _ = n
    rw [List.countP_append, countP_cycles d _ (cycle_count_oneshot d),
      startup_countP_zero d _ (by decide) (by decide) (by simp) (by decide)]
    omega
  · rw [ht, List.countP_append, countP_cycles d _ (cycle_count_beginsRecord d),
      startup_countP_zero d _ (by decide) (by decide) (kindLine_not_record d) (by decide)]
    omega
  · rw [ht]
    show List.countP (fun e => e == Event.sleep_ms 100) _ = n
    rw [List.countP_append, countP_cycles d _ (cycle_count_sleep100 d),
      startup_countP_zero d _ (by decide) (by decide) (by simp) (by decide)]
    omega
  · rw [ht, List.countP_append, countP_cycles d _ (cycle_count_isSleep d),
      startup_countP_zero d _ (by decide) (by decide) (by simp [Event.isSleep]) (by decide)]
    omega
  · intro k hk
    rw [ht, ← List.drop_drop, hdrop]
    exact cycles_block d n k hk
  · rw [ht, hdrop, printed_cycles]
  · rw [ht, hdrop, output_cycles]

/-- Witness for C10: a sample run with a successful pressure init, three cycles. -/
theorem C10_witness :
    (sampleDrivers 1 1).LPS22HB_INIT ≠ 0
      ∧ ∃ s, main (sampleDrivers 1 1) sampleLocals 3 = .running s
        ∧ s.calls = 3
        ∧ s.trace.count .imuDataGet = 3
        ∧ s.trace.count .LPS22HB_START_ONESHOT = 3
        ∧ s.trace.countP Event.beginsRecord = 3
        ∧ s.trace.count (.sleep_ms 100) = 3
        ∧ s.trace.countP Event.isSleep = 3 := by
  refine ⟨by decide, ?_⟩
  obtain ⟨s, h1, h2, -, h4, h5, h6, h7, h8, -⟩ :=
    C10_loop_invariant (sampleDrivers 1 1) sampleLocals 3 (by decide)
  exact ⟨s, h1, h2, h4, h5, h6, h7, h8⟩

/-- Concrete check for C3: the text of the second cycle of a sample run, started
from a state that still holds the first cycle's data. -/
theorem C3_witness :
    output (newEvents (loopBody (sampleDrivers 1 1) ⟨sampleLocals, 0, []⟩)
        (loopBody (sampleDrivers 1 1) (loopBody (sampleDrivers 1 1) ⟨sampleLocals, 0, []⟩)))
      = "\r\n \x7b\"roll\":1.00, \"pitch\":-1.00, \"yaw\":2.00\x7d" := by
  rw [(C3_cycle_writes_exactly_one_record (sampleDrivers 1 1)
    (loopBody (sampleDrivers 1 1) ⟨sampleLocals, 0, []⟩)).1]
  decide

/-- Concrete check for C6 on the failure path: the whole trace of the run. -/
theorem C6_witness :
    ∃ rest, (main (sampleDrivers 1 0) sampleLocals 2).state.trace
        = [.stdio_init_all, .imuInit, .printf "Motion sersor is ICM-20948\n", .LPS22HB_INIT]
            ++ rest
      ∧ rest = [.printf "LPS22HB Init Error\n"] := by
  obtain ⟨rest, h1, -, -, -, h5⟩ :=
    C6_motion_init_and_log_precede_pressure_init (sampleDrivers 1 0) sampleLocals 2
  exact ⟨rest, h1, (h5 rfl).1⟩

/-- C9: when the acquisition of a cycle is roll 12.345, pitch -0.004, yaw 359.996
(as `float`: the binary32 values nearest these decimals) and `%.2f` rounds to the
nearest hundredth, whatever the rule for ties, the cycle writes CR LF blank and then
exactly the record body with `"roll":12.35`, `"pitch":-0.00` and `"yaw":360.00`
between braces: each value has two decimals, the pitch rounds to zero and keeps its
minus sign, and the yaw carries into the integer part. -/
theorem C9_scenario_record_body (tie : Nat → Bool) (d : Drivers Binary32)
    (s : State Binary32) (hf : d.fmt2 = fmt2f tie)
    (ha : (d.imuDataGet s.calls).angles = ⟨roll12345, pitchMinus0004, yaw359996⟩) :
    output (newEvents s (loopBody d s))
        = "\r\n " ++ "\x7b\"roll\":12.35, \"pitch\":-0.00, \"yaw\":360.00\x7d"
      ∧ printed (newEvents s (loopBody d s))
        = ["\r\n \x7b", "\"roll\":12.35, \"pitch\":-0.00, \"yaw\":360.00", "\x7d"]
      ∧ d.fmt2 (loopBody d s).locals.stAngles.fRoll = "12.35"
      ∧ d.fmt2 (loopBody d s).locals.stAngles.fPitch = "-0.00"
      ∧ d.fmt2 (loopBody d s).locals.stAngles.fYaw = "360.00"
      ∧ (roll12345.isNormal = true ∧ roll12345.isNearestMilli 12345 = true)
      ∧ (pitchMinus0004.isNormal = true ∧ pitchMinus0004.isNearestMilli 4 = true
          ∧ pitchMinus0004.neg = true)
      ∧ (yaw359996.isNormal = true ∧ yaw359996.isNearestMilli 359996 = true) := by
  have hr := fmt2f_roll12345 tie
  have hp := fmt2f_pitchMinus0004 tie
  have hy := fmt2f_yaw359996 tie
  refine ⟨?_, ?_, ?_, ?_, ?_, ⟨by decide, by decide⟩, ⟨by decide, by decide, rfl⟩,
    ⟨by decide, by decide⟩⟩
  · rw [newEvents_loopBody, output_cycleEvents, ha, hf]
    unfold specRecord
    simp only []
    rw [hr, hp, hy]
    decide
  · rw [newEvents_loopBody]
    unfold cycleEvents anglesText
    rw [ha, hf]
    simp only [printed]
    rw [hr, hp, hy]
    decide
  · rw [loopBody_angles, ha, hf]; exact hr
  · rw [loopBody_angles, ha, hf]; exact hp
  · rw [loopBody_angles, ha, hf]; exact hy

/-- Witness for C9: the scenario under banker's rounding, from a state that holds
other angles. -/
theorem C9_witness :
    (scenarioDrivers (fun q => q % 2 == 1)).fmt2 = fmt2f (fun q => q % 2 == 1)
      ∧ ((scenarioDrivers (fun q => q % 2 == 1)).imuDataGet scenarioState.calls).angles
          = ⟨roll12345, pitchMinus0004, yaw359996⟩
      ∧ output (newEvents scenarioState
            (loopBody (scenarioDrivers (fun q => q % 2 == 1)) scenarioState))
          = "\r\n " ++ "\x7b\"roll\":12.35, \"pitch\":-0.00, \"yaw\":360.00\x7d" :=
  ⟨rfl, rfl,
   (C9_scenario_record_body (fun q => q % 2 == 1) (scenarioDrivers (fun q => q % 2 == 1))
      scenarioState rfl rfl).1⟩

end WaveshareImu
